import Mathlib

/-!
Shallow embedding of the EasySynth plugin's UI controller
(`Source/EasySynth/Private/Widgets/WidgetManager.cpp`).

The controller drives a batch-rendering state machine: `OnRenderImagesClicked`
discovers level sequences in the selected folder, queues them, and starts the
first render; `OnRenderingFinished` advances the index, forces garbage
collection between items and starts the next render; `RenderCurrentSequence`
delegates one item to the engine's sequence renderer.  Option state is
persisted through a `UWidgetStateAsset` by `SaveWidgetOptionStates` /
`LoadWidgetOptionStates`.

Engine-side behaviour (the asset registry, the sequence renderer, object
loading) is abstracted into an `Env` record of oracle functions, and the
controller's externally visible actions (renderer calls, message dialogs,
garbage collection) are recorded as an explicit event trace.
-/

namespace EasySynth

/-- `FRendererTargetOptions::TargetType`: the renderer target kinds the
widget manager refers to. -/
inductive TargetType where
  | COLOR_IMAGE
  | DEPTH_IMAGE
  | NORMAL_IMAGE
  | OPTICAL_FLOW_IMAGE
  | SEMANTIC_IMAGE
  | CUSTOM_PP_MATERIAL
deriving DecidableEq, Repr

/-- Modelled from the spec: the image format enum `EImageFormat` used by the
output-format combo boxes (`jpeg`, `png`, `exr`); its definition lives outside
this file's source excerpt. -/
inductive EImageFormat where
  | JPEG
  | PNG
  | EXR
deriving DecidableEq, Repr

/-- Modelled from the spec: the integer value of an `EImageFormat`, as used by
the `static_cast<int8>` in `SaveWidgetOptionStates`. -/
def imageFormatToInt : EImageFormat → Int
  | EImageFormat.JPEG => 0
  | EImageFormat.PNG => 1
  | EImageFormat.EXR => 2

/-- Modelled from the spec: the `static_cast<EImageFormat>` applied to the
persisted `int8` fields in `LoadWidgetOptionStates`. -/
def imageFormatOfInt (n : Int) : EImageFormat :=
  if n = 0 then EImageFormat.JPEG
  else if n = 1 then EImageFormat.PNG
  else EImageFormat.EXR

/-- An engine `FAssetData`: the fields of it the widget manager reads
(asset name, asset class name, object path). -/
structure FAssetData where
  assetName : String
  assetClassName : String
  objectPath : String
deriving DecidableEq, Repr

/-- Modelled from the spec: `FRendererTargetOptions`, the option bookkeeping
record (checkbox/combo state) owned by the widget manager; its methods are
declared outside this source excerpt, so selection flags and output formats
are modelled as plain per-target maps. -/
structure FRendererTargetOptions where
  bExportCameraPoses : Bool
  selectedTargets : TargetType → Bool
  outputFormats : TargetType → EImageFormat
  customPPMaterial : Option FAssetData
  depthRangeMeters : Rat
  opticalFlowScale : Rat

/-- Modelled from the spec: `FRendererTargetOptions::SetSelectedTarget`. -/
def setSelectedTarget (o : FRendererTargetOptions) (t : TargetType) (b : Bool) :
    FRendererTargetOptions :=
  { o with selectedTargets := fun u => if u = t then b else o.selectedTargets u }

/-- Modelled from the spec: `FRendererTargetOptions::SetOutputFormat`. -/
def setOutputFormat (o : FRendererTargetOptions) (t : TargetType) (f : EImageFormat) :
    FRendererTargetOptions :=
  { o with outputFormats := fun u => if u = t then f else o.outputFormats u }

/-- The list of all renderer target kinds. -/
def allTargetTypes : List TargetType :=
  [TargetType.COLOR_IMAGE, TargetType.DEPTH_IMAGE, TargetType.NORMAL_IMAGE,
   TargetType.OPTICAL_FLOW_IMAGE, TargetType.SEMANTIC_IMAGE, TargetType.CUSTOM_PP_MATERIAL]

/-- Modelled from the spec: `FRendererTargetOptions::AnyOptionSelected`,
"at least one renderer target option is selected". -/
def anyOptionSelected (o : FRendererTargetOptions) : Bool :=
  allTargetTypes.any o.selectedTargets

/-- Modelled from the spec: `FAssetData::ToSoftObjectPath` — the object path of
a valid asset, the empty path otherwise (used when persisting the custom
post-process material). -/
def toSoftObjectPath : Option FAssetData → String
  | some a => a.objectPath
  | none => ""

/-- `UWidgetStateAsset`: the persisted engine asset, with exactly the fields
`SaveWidgetOptionStates` writes and `LoadWidgetOptionStates` reads.  The
output-format fields are `int8` in the engine asset, modelled as `Int`. -/
structure UWidgetStateAsset where
  levelSequenceAssetPath : String
  bCameraPosesSelected : Bool
  bColorImagesSelected : Bool
  bDepthImagesSelected : Bool
  bNormalImagesSelected : Bool
  bOpticalFlowImagesSelected : Bool
  bSemanticImagesSelected : Bool
  bColorImagesOutputFormat : Int
  bDepthImagesOutputFormat : Int
  bNormalImagesOutputFormat : Int
  bOpticalFlowImagesOutputFormat : Int
  bSemanticImagesOutputFormat : Int
  customPPMaterialAssetPath : String
  bCustomPPMaterialOutputFormat : Int
  outputImageResolution : Int × Int
  depthRange : Rat
  opticalFlowScale : Rat
  outputDirectory : String

/-- The mutable state of `FWidgetManager` that the batch rendering state
machine and the option persistence read and write. -/
structure WidgetState where
  selectedSequencesFolder : String
  sequenceRendererTargets : FRendererTargetOptions
  outputImageResolution : Int × Int
  outputDirectory : String
  baseOutputDirectory : String
  sequencesToRender : List FAssetData
  currentSequenceIndex : Int

/-- The engine environment the widget manager calls into: filename-to-package
conversion, the asset registry query, the sequence renderer start call and its
error message, object loading for the custom material, and the persisted
widget state asset (result of `LoadObject<UWidgetStateAsset>`). -/
structure Env where
  tryConvertFilenameToLongPackageName : String → Option String
  getAssetsByPath : String → Bool → List FAssetData
  renderSequenceOk : FAssetData → FRendererTargetOptions → Int × Int → String → Bool
  rendererErrorMessage : String
  tryLoad : String → Option FAssetData
  widgetStateAsset : Option UWidgetStateAsset

/-- The externally visible actions the widget manager performs while driving a
batch: a `SequenceRenderer->RenderSequence` call with its arguments, a message
dialog (title, message), a forced garbage collection, the one-second sleep,
and the option save at the end of the click handler. -/
inductive Event where
  | renderCall (seq : FAssetData) (targets : FRendererTargetOptions)
      (resolution : Int × Int) (outputDir : String)
  | dialog (title : String) (message : String)
  | forceGarbageCollection
  | sleep
  | saveWidgetOptions

/-- `FString::operator/`: path concatenation inserting a separator. -/
def pathJoin (base name : String) : String :=
  if base.endsWith "/" then base ++ name else base ++ "/" ++ name

/-- `FWidgetManager::RenderCurrentSequence` (WidgetManager.cpp 560-592):
bail out on an invalid index, otherwise call the sequence renderer once for
the current sequence with the current targets, resolution and the per-sequence
output directory; on a failed start, show the renderer's error message and
reset the batch state. -/
def renderCurrentSequence (env : Env) (s : WidgetState) : WidgetState × List Event :=
  if s.currentSequenceIndex < 0 ∨ (s.sequencesToRender.length : Int) ≤ s.currentSequenceIndex then
    (s, [])
  else
    match s.sequencesToRender[s.currentSequenceIndex.toNat]? with
    | none => (s, [])
    | some currentSequence =>
      let sequenceOutputDir := pathJoin s.baseOutputDirectory currentSequence.assetName
      let callEvent := Event.renderCall currentSequence s.sequenceRendererTargets
        s.outputImageResolution sequenceOutputDir
      if env.renderSequenceOk currentSequence s.sequenceRendererTargets
          s.outputImageResolution sequenceOutputDir then
        (s, [callEvent])
      else
        ({ s with sequencesToRender := [], currentSequenceIndex := -1 },
         [callEvent, Event.dialog "Could not start rendering" env.rendererErrorMessage])

/-- `FWidgetManager::OnRenderImagesClicked` (WidgetManager.cpp 502-558):
clear the queue, convert the selected folder to a package path, query the
asset registry non-recursively, keep only `LevelSequence` assets, then either
report an empty result or capture the base output directory, start the first
sequence at index 0 and save the widget options. -/
def onRenderImagesClicked (env : Env) (s : WidgetState) : WidgetState × List Event :=
  let s0 := { s with sequencesToRender := ([] : List FAssetData), currentSequenceIndex := (-1 : Int) }
  match env.tryConvertFilenameToLongPackageName s0.selectedSequencesFolder with
  | none =>
    (s0, [Event.dialog "Invalid Folder" "Selected folder is not a valid content folder."])
  | some packagePath =>
    let assetDataList := env.getAssetsByPath packagePath false
    let sequences := assetDataList.filter (fun a => a.assetClassName == "LevelSequence")
    let s1 := { s0 with sequencesToRender := sequences }
    if sequences.length = 0 then
      (s1, [Event.dialog "No Sequences Found"
        "No level sequence assets found in the selected folder."])
    else
      let s2 := { s1 with baseOutputDirectory := s1.outputDirectory,
                          currentSequenceIndex := (0 : Int) }
      let r := renderCurrentSequence env s2
      (r.1, r.2 ++ [Event.saveWidgetOptions])

/-- The dialog message of the batch completion report (WidgetManager.cpp
645-650). -/
def batchCompleteMessage (n : Nat) : String :=
  "Successfully rendered " ++ toString n ++ " sequences."

/-- The sequence name reported by the rendering failure dialog
(WidgetManager.cpp 674-676): the current sequence's asset name inside a batch,
"Unknown" otherwise. -/
def failedSequenceName (s : WidgetState) : String :=
  if 0 ≤ s.currentSequenceIndex ∧ s.currentSequenceIndex < (s.sequencesToRender.length : Int) then
    match s.sequencesToRender[s.currentSequenceIndex.toNat]? with
    | some a => a.assetName
    | none => "Unknown"
  else "Unknown"

/-- The dialog message of the rendering failure report (WidgetManager.cpp
670-678): the failing sequence's name, or "Unknown" outside a batch, followed
by the renderer's error message. -/
def renderFailedMessage (s : WidgetState) (errorMessage : String) : String :=
  ("Failed on sequence: " ++ failedSequenceName s ++ "\n\nError: ") ++ errorMessage

/-- `FWidgetManager::OnRenderingFinished` (WidgetManager.cpp 616-684): on
success inside a batch, advance the index; if sequences remain, force garbage
collection, sleep, and render the next one, otherwise report batch completion
and reset; on success outside a batch, report a single successful rendering;
on failure, report the error and reset the batch state. -/
def onRenderingFinished (env : Env) (bSuccess : Bool) (s : WidgetState) :
    WidgetState × List Event :=
  if bSuccess then
    if 0 ≤ s.currentSequenceIndex ∧ s.currentSequenceIndex < (s.sequencesToRender.length : Int) then
      let s1 := { s with currentSequenceIndex := s.currentSequenceIndex + 1 }
      if s1.currentSequenceIndex < (s1.sequencesToRender.length : Int) then
        let r := renderCurrentSequence env s1
        (r.1, [Event.forceGarbageCollection, Event.sleep] ++ r.2)
      else
        ({ s1 with sequencesToRender := [], currentSequenceIndex := -1 },
         [Event.dialog "Batch Rendering Complete"
           (batchCompleteMessage s1.sequencesToRender.length)])
    else
      (s, [Event.dialog "Successful rendering" "Rendering finished successfully"])
  else
    ({ s with sequencesToRender := [], currentSequenceIndex := -1 },
     [Event.dialog "Rendering failed" (renderFailedMessage s env.rendererErrorMessage)])

/-- Feed a list of `OnRenderingFinished` callbacks, one at a time, to the
widget manager, accumulating the emitted events. -/
def runFinishes (env : Env) (sp : WidgetState × List Event) :
    List Bool → WidgetState × List Event
  | [] => sp
  | b :: rest =>
    let r := onRenderingFinished env b sp.1
    runFinishes env (r.1, sp.2 ++ r.2) rest

/-- A batch run: a Render Images click followed by a list of rendering-finished
callbacks. -/
def runBatch (env : Env) (s : WidgetState) (finishes : List Bool) :
    WidgetState × List Event :=
  runFinishes env (onRenderImagesClicked env s) finishes

/-- The sequence assets passed to `RenderSequence` calls in a trace, in
order. -/
def renderedSequences (evs : List Event) : List FAssetData :=
  evs.filterMap (fun e =>
    match e with
    | Event.renderCall seq _ _ _ => some seq
    | _ => none)

/-- `FWidgetManager::GetIsRenderImagesEnabled` (WidgetManager.cpp 494-500). -/
def getIsRenderImagesEnabled (s : WidgetState) (rendererNonNull isRendering : Bool) : Bool :=
  !s.selectedSequencesFolder.isEmpty &&
  anyOptionSelected s.sequenceRendererTargets &&
  (rendererNonNull && !isRendering)

/-- The target kinds given a selectable checkbox in `OnSpawnPluginTab`
(WidgetManager.cpp 80-84), in insertion order of `TargetCheckBoxNames`. -/
def targetCheckBoxKinds : List TargetType :=
  [TargetType.COLOR_IMAGE, TargetType.DEPTH_IMAGE, TargetType.NORMAL_IMAGE,
   TargetType.OPTICAL_FLOW_IMAGE, TargetType.SEMANTIC_IMAGE]

/-- `FWidgetManager::LoadWidgetOptionStates` (WidgetManager.cpp 686-725):
if the widget state asset loads, reset the selected sequences folder to the
empty string and take every other option from the asset; otherwise leave the
state unchanged. -/
def loadWidgetOptionStates (env : Env) (s : WidgetState) : WidgetState :=
  match env.widgetStateAsset with
  | none => s
  | some asset =>
    let t0 := s.sequenceRendererTargets
    let t1 := { t0 with bExportCameraPoses := asset.bCameraPosesSelected }
    let t2 := setSelectedTarget t1 TargetType.COLOR_IMAGE asset.bColorImagesSelected
    let t3 := setSelectedTarget t2 TargetType.DEPTH_IMAGE asset.bDepthImagesSelected
    let t4 := setSelectedTarget t3 TargetType.NORMAL_IMAGE asset.bNormalImagesSelected
    let t5 := setSelectedTarget t4 TargetType.OPTICAL_FLOW_IMAGE asset.bOpticalFlowImagesSelected
    let t6 := setSelectedTarget t5 TargetType.SEMANTIC_IMAGE asset.bSemanticImagesSelected
    let t7 := setOutputFormat t6 TargetType.COLOR_IMAGE
      (imageFormatOfInt asset.bColorImagesOutputFormat)
    let t8 := setOutputFormat t7 TargetType.DEPTH_IMAGE
      (imageFormatOfInt asset.bDepthImagesOutputFormat)
    let t9 := setOutputFormat t8 TargetType.NORMAL_IMAGE
      (imageFormatOfInt asset.bNormalImagesOutputFormat)
    let t10 := setOutputFormat t9 TargetType.OPTICAL_FLOW_IMAGE
      (imageFormatOfInt asset.bOpticalFlowImagesOutputFormat)
    let t11 := setOutputFormat t10 TargetType.SEMANTIC_IMAGE
      (imageFormatOfInt asset.bSemanticImagesOutputFormat)
    let t12 := { t11 with customPPMaterial := env.tryLoad asset.customPPMaterialAssetPath }
    let t13 := setOutputFormat t12 TargetType.CUSTOM_PP_MATERIAL
      (imageFormatOfInt asset.bCustomPPMaterialOutputFormat)
    let t14 := { t13 with depthRangeMeters := asset.depthRange }
    let t15 := { t14 with opticalFlowScale := asset.opticalFlowScale }
    { s with
      selectedSequencesFolder := "",
      sequenceRendererTargets := t15,
      outputImageResolution := asset.outputImageResolution,
      outputDirectory := asset.outputDirectory }

/-- `FWidgetManager::SaveWidgetOptionStates` (WidgetManager.cpp 752-776):
the persisted asset's field values, every one overwritten from the current
widget state (the level sequence path is cleared). -/
def savedWidgetStateAsset (s : WidgetState) : UWidgetStateAsset :=
  let t := s.sequenceRendererTargets
  { levelSequenceAssetPath := ""
    bCameraPosesSelected := t.bExportCameraPoses
    bColorImagesSelected := t.selectedTargets TargetType.COLOR_IMAGE
    bDepthImagesSelected := t.selectedTargets TargetType.DEPTH_IMAGE
    bNormalImagesSelected := t.selectedTargets TargetType.NORMAL_IMAGE
    bOpticalFlowImagesSelected := t.selectedTargets TargetType.OPTICAL_FLOW_IMAGE
    bSemanticImagesSelected := t.selectedTargets TargetType.SEMANTIC_IMAGE
    bColorImagesOutputFormat := imageFormatToInt (t.outputFormats TargetType.COLOR_IMAGE)
    bDepthImagesOutputFormat := imageFormatToInt (t.outputFormats TargetType.DEPTH_IMAGE)
    bNormalImagesOutputFormat := imageFormatToInt (t.outputFormats TargetType.NORMAL_IMAGE)
    bOpticalFlowImagesOutputFormat := imageFormatToInt (t.outputFormats TargetType.OPTICAL_FLOW_IMAGE)
    bSemanticImagesOutputFormat := imageFormatToInt (t.outputFormats TargetType.SEMANTIC_IMAGE)
    customPPMaterialAssetPath := toSoftObjectPath t.customPPMaterial
    bCustomPPMaterialOutputFormat := imageFormatToInt (t.outputFormats TargetType.CUSTOM_PP_MATERIAL)
    outputImageResolution := s.outputImageResolution
    depthRange := t.depthRangeMeters
    opticalFlowScale := t.opticalFlowScale
    outputDirectory := s.outputDirectory }

/-- `FWidgetManager::GetCustomPPMaterialPath` (WidgetManager.cpp 484-492). -/
def getCustomPPMaterialPath (s : WidgetState) : String :=
  match s.sequenceRendererTargets.customPPMaterial with
  | some a => a.objectPath
  | none => ""


/-- The `RenderSequence` call events of a trace, in order. -/
def renderCalls (evs : List Event) : List Event :=
  evs.filter (fun e =>
    match e with
    | Event.renderCall _ _ _ _ => true
    | _ => false)

/-- Round trip of the image format through its persisted `int8` encoding. -/
theorem imageFormat_roundtrip (f : EImageFormat) : imageFormatOfInt (imageFormatToInt f) = f := by
  cases f <;> rfl

/-- C8: the render-target kinds exposed as selectable checkbox targets are
exactly COLOR_IMAGE, DEPTH_IMAGE, NORMAL_IMAGE, OPTICAL_FLOW_IMAGE and
SEMANTIC_IMAGE. -/
theorem c8_selectable_target_kinds (t : TargetType) :
    t ∈ targetCheckBoxKinds ↔
      (t = TargetType.COLOR_IMAGE ∨ t = TargetType.DEPTH_IMAGE ∨
       t = TargetType.NORMAL_IMAGE ∨ t = TargetType.OPTICAL_FLOW_IMAGE ∨
       t = TargetType.SEMANTIC_IMAGE) := by
  cases t <;> simp [targetCheckBoxKinds]

/-- C9: the Render Images button is enabled exactly when the selected
sequences folder is non-empty, at least one renderer target option is
selected, the sequence renderer is non-null, and it is not currently
rendering; in particular enabled implies not rendering. -/
theorem c9_render_images_enabled (s : WidgetState) (rendererNonNull isRendering : Bool) :
    (getIsRenderImagesEnabled s rendererNonNull isRendering = true ↔
      (s.selectedSequencesFolder.isEmpty = false ∧
       (∃ t ∈ allTargetTypes, s.sequenceRendererTargets.selectedTargets t = true) ∧
       rendererNonNull = true ∧ isRendering = false)) ∧
    (getIsRenderImagesEnabled s rendererNonNull isRendering = true → isRendering = false) := by
  constructor
  · simp [getIsRenderImagesEnabled, anyOptionSelected, List.any_eq_true,
      Bool.and_eq_true, Bool.not_eq_true']
    tauto
  · intro h
    simp [getIsRenderImagesEnabled, Bool.and_eq_true, Bool.not_eq_true'] at h
    exact h.2.2

/-- C7: when the last sequence of a batch finishes successfully, a Batch
Rendering Complete dialog reporting the total number of rendered sequences is
shown and the batch state is reset (queue emptied, index set to -1). -/
theorem c7_batch_complete (env : Env) (s : WidgetState) (k : Nat)
    (hidx : s.currentSequenceIndex = (k : Int))
    (hlast : k + 1 = s.sequencesToRender.length) :
    (onRenderingFinished env true s).1.sequencesToRender = [] ∧
    (onRenderingFinished env true s).1.currentSequenceIndex = -1 ∧
    (onRenderingFinished env true s).2 =
      [Event.dialog "Batch Rendering Complete"
        (batchCompleteMessage s.sequencesToRender.length)] := by
  have hk : (0 : Int) ≤ s.currentSequenceIndex ∧
      s.currentSequenceIndex < (s.sequencesToRender.length : Int) := by
    constructor <;> omega
  have hnotlt : ¬ (s.currentSequenceIndex + 1 < (s.sequencesToRender.length : Int)) := by
    omega
  simp [onRenderingFinished, hk, hnotlt]

/-- C2: rendering failure aborts the batch — a failed `RenderSequence` start
shows the renderer's error message and resets the batch state, and a failed
`OnRenderingFinished` shows an error dialog containing the renderer's error
message and resets the batch state. -/
theorem c2_failure_aborts_batch (env : Env) (s : WidgetState) (seq : FAssetData)
    (h0 : 0 ≤ s.currentSequenceIndex)
    (hget : s.sequencesToRender[s.currentSequenceIndex.toNat]? = some seq)
    (hfail : env.renderSequenceOk seq s.sequenceRendererTargets s.outputImageResolution
      (pathJoin s.baseOutputDirectory seq.assetName) = false) :
    ((renderCurrentSequence env s).1.sequencesToRender = [] ∧
     (renderCurrentSequence env s).1.currentSequenceIndex = -1 ∧
     Event.dialog "Could not start rendering" env.rendererErrorMessage ∈
       (renderCurrentSequence env s).2) ∧
    (∀ s' : WidgetState,
      (onRenderingFinished env false s').1.sequencesToRender = [] ∧
      (onRenderingFinished env false s').1.currentSequenceIndex = -1 ∧
      (onRenderingFinished env false s').2 =
        [Event.dialog "Rendering failed"
          (("Failed on sequence: " ++ failedSequenceName s' ++ "\n\nError: ") ++
            env.rendererErrorMessage)]) := by
  have hlt : s.currentSequenceIndex.toNat < s.sequencesToRender.length := by
    by_contra hc
    rw [List.getElem?_eq_none (by omega)] at hget
    simp at hget
  have hguard : ¬ (s.currentSequenceIndex < 0 ∨
      (s.sequencesToRender.length : Int) ≤ s.currentSequenceIndex) := by
    omega
  constructor
  · simp [renderCurrentSequence, hguard, hget, hfail]
  · intro s'
    refine ⟨?_, ?_, ?_⟩ <;> simp [onRenderingFinished, renderFailedMessage]

/-- C3: garbage collection is forced between batch items — after a successful
finish with more sequences remaining, the emitted trace is the forced garbage
collection, then the sleep, then the `RenderSequence` call for the next
sequence; when no sequence remains, no garbage collection is forced. -/
theorem c3_gc_between_items (env : Env) (s : WidgetState) (k : Nat)
    (hidx : s.currentSequenceIndex = (k : Int)) :
    (∀ seq : FAssetData, s.sequencesToRender[k + 1]? = some seq →
      ∃ rest, (onRenderingFinished env true s).2 =
        Event.forceGarbageCollection :: Event.sleep ::
          Event.renderCall seq s.sequenceRendererTargets s.outputImageResolution
            (pathJoin s.baseOutputDirectory seq.assetName) :: rest) ∧
    (k + 1 = s.sequencesToRender.length →
      Event.forceGarbageCollection ∉ (onRenderingFinished env true s).2) := by
  constructor
  · intro seq hget
    have hlt : k + 1 < s.sequencesToRender.length := by
      by_contra hc
      rw [List.getElem?_eq_none (by omega)] at hget
      simp at hget
    have hk : (0 : Int) ≤ s.currentSequenceIndex ∧
        s.currentSequenceIndex < (s.sequencesToRender.length : Int) := by
      constructor <;> omega
    have hin : s.currentSequenceIndex + 1 < (s.sequencesToRender.length : Int) := by omega
    have hguard : ¬ (s.currentSequenceIndex + 1 < 0 ∨
        (s.sequencesToRender.length : Int) ≤ s.currentSequenceIndex + 1) := by omega
    have htn : (s.currentSequenceIndex + 1).toNat = k + 1 := by omega
    simp only [onRenderingFinished, renderCurrentSequence, hk, hin, if_true,
      if_pos hk, if_pos hin, if_neg hguard, htn, hget]
    by_cases hok : env.renderSequenceOk seq s.sequenceRendererTargets
        s.outputImageResolution (pathJoin s.baseOutputDirectory seq.assetName) = true
    · exact ⟨[], by simp [hok]⟩
    · refine ⟨[Event.dialog "Could not start rendering" env.rendererErrorMessage], ?_⟩
      simp at hok
      simp [hok]
  · intro hlast
    have hk : (0 : Int) ≤ s.currentSequenceIndex ∧
        s.currentSequenceIndex < (s.sequencesToRender.length : Int) := by
      constructor <;> omega
    have hnotlt : ¬ (s.currentSequenceIndex + 1 < (s.sequencesToRender.length : Int)) := by
      omega
    simp [onRenderingFinished, hk, hnotlt]

/-- `RenderCurrentSequence` never changes the captured base output
directory. -/
theorem renderCurrentSequence_baseOutputDirectory (env : Env) (s : WidgetState) :
    (renderCurrentSequence env s).1.baseOutputDirectory = s.baseOutputDirectory := by
  unfold renderCurrentSequence
  split
  · rfl
  · split
    · rfl
    · dsimp only
      split
      · rfl
      · rfl

/-- C6: `RenderCurrentSequence` delegates to the sequence renderer — for a
valid current index it emits exactly one `RenderSequence` call, passing the
current sequence's asset data, the current renderer target options, the
current output resolution, and the base output directory joined with the
sequence's asset name; and a successful click captures the base output
directory from the output directory option. -/
theorem c6_delegates_to_renderer (env : Env) (s : WidgetState) (seq : FAssetData)
    (h0 : 0 ≤ s.currentSequenceIndex)
    (hget : s.sequencesToRender[s.currentSequenceIndex.toNat]? = some seq) :
    renderCalls (renderCurrentSequence env s).2 =
      [Event.renderCall seq s.sequenceRendererTargets s.outputImageResolution
        (pathJoin s.baseOutputDirectory seq.assetName)] ∧
    (∀ packagePath : String,
      env.tryConvertFilenameToLongPackageName s.selectedSequencesFolder = some packagePath →
      (onRenderImagesClicked env s).1.baseOutputDirectory = s.baseOutputDirectory ∨
      (onRenderImagesClicked env s).1.baseOutputDirectory = s.outputDirectory) := by
  have hlt : s.currentSequenceIndex.toNat < s.sequencesToRender.length := by
    by_contra hc
    rw [List.getElem?_eq_none (by omega)] at hget
    simp at hget
  have hguard : ¬ (s.currentSequenceIndex < 0 ∨
      (s.sequencesToRender.length : Int) ≤ s.currentSequenceIndex) := by
    omega
  constructor
  · by_cases hok : env.renderSequenceOk seq s.sequenceRendererTargets
        s.outputImageResolution (pathJoin s.baseOutputDirectory seq.assetName) = true
    · simp [renderCurrentSequence, hguard, hget, hok, renderCalls]
    · simp at hok
      simp [renderCurrentSequence, hguard, hget, hok, renderCalls]
  · intro packagePath hconv
    simp only [onRenderImagesClicked, hconv]
    by_cases hz :
        ((env.getAssetsByPath packagePath false).filter
          (fun a => a.assetClassName == "LevelSequence")).length = 0
    · left
      simp [hz]
    · right
      simp only [hz, if_false, if_neg hz]
      rw [renderCurrentSequence_baseOutputDirectory]

/-- When the sequence renderer accepts every start request,
`RenderCurrentSequence` leaves the widget state unchanged. -/
theorem renderCurrentSequence_ok_state (env : Env) (s : WidgetState)
    (hok : ∀ a t r d, env.renderSequenceOk a t r d = true) :
    (renderCurrentSequence env s).1 = s := by
  unfold renderCurrentSequence
  split
  · rfl
  · split
    · rfl
    · simp [hok]

/-- C5: sequence discovery and queueing — after a Render Images click whose
folder converts to a package path, the queue holds exactly the assets the
registry returns for that path non-recursively whose asset class name is
LevelSequence, in registry order. -/
theorem c5_sequence_discovery (env : Env) (s : WidgetState) (packagePath : String)
    (hconv : env.tryConvertFilenameToLongPackageName s.selectedSequencesFolder = some packagePath)
    (hok : ∀ a t r d, env.renderSequenceOk a t r d = true) :
    (onRenderImagesClicked env s).1.sequencesToRender =
      (env.getAssetsByPath packagePath false).filter
        (fun a => a.assetClassName == "LevelSequence") := by
  simp only [onRenderImagesClicked, hconv]
  by_cases hz : ((env.getAssetsByPath packagePath false).filter
      (fun a => a.assetClassName == "LevelSequence")).length = 0
  · simp [hz]
  · simp only [hz, if_neg hz, if_false]
    rw [renderCurrentSequence_ok_state env _ hok]

/-- A successful finish with a next sequence remaining: the index advances and
the trace is garbage collection, sleep, and the next render call. -/
theorem onRenderingFinished_success_more (env : Env) (s : WidgetState) (k : Nat)
    (seq : FAssetData)
    (hidx : s.currentSequenceIndex = (k : Int))
    (hget : s.sequencesToRender[k + 1]? = some seq)
    (hok : env.renderSequenceOk seq s.sequenceRendererTargets s.outputImageResolution
      (pathJoin s.baseOutputDirectory seq.assetName) = true) :
    onRenderingFinished env true s =
      ({ s with currentSequenceIndex := (k : Int) + 1 },
       [Event.forceGarbageCollection, Event.sleep,
        Event.renderCall seq s.sequenceRendererTargets s.outputImageResolution
          (pathJoin s.baseOutputDirectory seq.assetName)]) := by
  have hlt : k + 1 < s.sequencesToRender.length := by
    by_contra hc
    rw [List.getElem?_eq_none (by omega)] at hget
    simp at hget
  have hcond : (0 : Int) ≤ s.currentSequenceIndex ∧
      s.currentSequenceIndex < (s.sequencesToRender.length : Int) := by
    constructor <;> omega
  have hin : s.currentSequenceIndex + 1 < (s.sequencesToRender.length : Int) := by omega
  have hguard : ¬ (s.currentSequenceIndex + 1 < 0 ∨
      (s.sequencesToRender.length : Int) ≤ s.currentSequenceIndex + 1) := by omega
  have htn : (s.currentSequenceIndex + 1).toNat = k + 1 := by omega
  have h1 : k < s.sequencesToRender.length := by omega
  have h2 : (k : Int) + 1 < (s.sequencesToRender.length : Int) := by omega
  have h3 : ¬ ((k : Int) + 1 < 0 ∨ (s.sequencesToRender.length : Int) ≤ (k : Int) + 1) := by
    omega
  simp only [onRenderingFinished, renderCurrentSequence, if_pos hcond, if_pos hin,
    if_neg hguard, htn, hget, hidx]
  simp [h1, h2, h3, hget, hok]

/-- A successful finish of the last sequence: the batch completion dialog is
shown and the batch state is reset. -/
theorem onRenderingFinished_success_last (env : Env) (s : WidgetState) (k : Nat)
    (hidx : s.currentSequenceIndex = (k : Int))
    (hlast : k + 1 = s.sequencesToRender.length) :
    onRenderingFinished env true s =
      ({ s with sequencesToRender := [], currentSequenceIndex := -1 },
       [Event.dialog "Batch Rendering Complete"
         (batchCompleteMessage s.sequencesToRender.length)]) := by
  have hcond : (0 : Int) ≤ s.currentSequenceIndex ∧
      s.currentSequenceIndex < (s.sequencesToRender.length : Int) := by
    constructor <;> omega
  have hnotlt : ¬ (s.currentSequenceIndex + 1 < (s.sequencesToRender.length : Int)) := by
    omega
  simp [onRenderingFinished, hcond, hnotlt]

/-- After the batch state has been reset, further successful finish callbacks
only show the single-rendering dialog: no render call is emitted. -/
theorem runFinishes_reset (env : Env) :
    ∀ (m : Nat) (s : WidgetState) (evs : List Event),
      s.sequencesToRender = [] → s.currentSequenceIndex = -1 →
      renderedSequences (runFinishes env (s, evs) (List.replicate m true)).2 =
        renderedSequences evs := by
  intro m
  induction m with
  | zero =>
    intro s evs h1 h2
    simp [runFinishes]
  | succ m ih =>
    intro s evs h1 h2
    have hcond : ¬ ((0 : Int) ≤ s.currentSequenceIndex ∧
        s.currentSequenceIndex < (s.sequencesToRender.length : Int)) := by
      rw [h2]
      omega
    have hstep : onRenderingFinished env true s =
        (s, [Event.dialog "Successful rendering" "Rendering finished successfully"]) := by
      simp [onRenderingFinished, hcond]
    rw [List.replicate_succ]
    simp only [runFinishes, hstep]
    rw [ih s _ h1 h2]
    simp [renderedSequences]

/-- While the batch is active at index `k` and every render start succeeds,
`m` further successful finish callbacks render the next `m` queued sequences,
in queue order. -/
theorem runFinishes_active (env : Env)
    (hok : ∀ a t r d, env.renderSequenceOk a t r d = true) :
    ∀ (m k : Nat) (s : WidgetState) (evs : List Event),
      s.currentSequenceIndex = (k : Int) →
      k < s.sequencesToRender.length →
      renderedSequences (runFinishes env (s, evs) (List.replicate m true)).2 =
        renderedSequences evs ++ (s.sequencesToRender.drop (k + 1)).take m := by
  intro m
  induction m with
  | zero =>
    intro k s evs hidx hk
    simp [runFinishes]
  | succ m ih =>
    intro k s evs hidx hk
    by_cases hlt : k + 1 < s.sequencesToRender.length
    · have hget : s.sequencesToRender[k + 1]? = some (s.sequencesToRender[k + 1]) :=
        List.getElem?_eq_getElem hlt
      rw [List.replicate_succ]
      simp only [runFinishes,
        onRenderingFinished_success_more env s k _ hidx hget (hok _ _ _ _)]
      rw [ih (k + 1) _ _ (by push_cast; ring) (by simpa using hlt)]
      rw [List.drop_eq_getElem_cons hlt, List.take_succ_cons]
      simp [renderedSequences]
    · have hlast : k + 1 = s.sequencesToRender.length := by omega
      rw [List.replicate_succ]
      simp only [runFinishes, onRenderingFinished_success_last env s k hidx hlast]
      rw [runFinishes_reset env m _ _ rfl rfl]
      rw [List.drop_eq_nil_of_le (by omega)]
      simp [renderedSequences]

/-- A Render Images click with a valid folder, a non-empty discovery result
and an accepting renderer: the queue is the filtered registry result, the base
output directory is captured, the index starts at 0, and the trace is the
first render call followed by the option save. -/
theorem onRenderImagesClicked_starts (env : Env) (s : WidgetState) (packagePath : String)
    (a : FAssetData) (t : List FAssetData)
    (hconv : env.tryConvertFilenameToLongPackageName s.selectedSequencesFolder = some packagePath)
    (hfilter : (env.getAssetsByPath packagePath false).filter
      (fun x => x.assetClassName == "LevelSequence") = a :: t)
    (hok : env.renderSequenceOk a s.sequenceRendererTargets s.outputImageResolution
      (pathJoin s.outputDirectory a.assetName) = true) :
    onRenderImagesClicked env s =
      ({ s with sequencesToRender := a :: t, baseOutputDirectory := s.outputDirectory,
                currentSequenceIndex := 0 },
       [Event.renderCall a s.sequenceRendererTargets s.outputImageResolution
          (pathJoin s.outputDirectory a.assetName),
        Event.saveWidgetOptions]) := by
  simp only [onRenderImagesClicked, hconv, hfilter]
  have hz : ¬ (a :: t).length = 0 := by simp
  rw [if_neg hz]
  have hpos : ¬ ((t.length : Int) + 1 ≤ 0) := by omega
  simp [renderCurrentSequence, hok, hpos]

/-- C1: batch rendering is a linear index-based iteration — after a click that
discovers the filtered sequence list, with every render start accepted, `m`
successful finish callbacks make the render-call trace exactly the first
`m + 1` discovered sequences in order: index 0 first, no skips, no
reordering. -/
theorem c1_linear_batch_iteration (env : Env) (s : WidgetState) (packagePath : String)
    (m : Nat)
    (hconv : env.tryConvertFilenameToLongPackageName s.selectedSequencesFolder = some packagePath)
    (hok : ∀ a t r d, env.renderSequenceOk a t r d = true)
    (hne : (env.getAssetsByPath packagePath false).filter
      (fun x => x.assetClassName == "LevelSequence") ≠ []) :
    renderedSequences (runBatch env s (List.replicate m true)).2 =
      ((env.getAssetsByPath packagePath false).filter
        (fun x => x.assetClassName == "LevelSequence")).take (m + 1) := by
  obtain ⟨a, t, hat⟩ : ∃ a t, (env.getAssetsByPath packagePath false).filter
      (fun x => x.assetClassName == "LevelSequence") = a :: t := by
    cases h : (env.getAssetsByPath packagePath false).filter
        (fun x => x.assetClassName == "LevelSequence") with
    | nil => exact absurd h hne
    | cons a t => exact ⟨a, t, rfl⟩
  rw [hat, List.take_succ_cons]
  unfold runBatch
  rw [onRenderImagesClicked_starts env s packagePath a t hconv hat (hok _ _ _ _)]
  rw [runFinishes_active env hok m 0 _ _ rfl (by simp)]
  simp [renderedSequences]

/-- C10: the selected sequences folder is never restored nor persisted — a
successful load sets it to the empty string while the other option fields come
from the asset, and the saved asset does not depend on the folder. -/
theorem c10_folder_never_persisted (env : Env) (s : WidgetState) (asset : UWidgetStateAsset)
    (h : env.widgetStateAsset = some asset) :
    (loadWidgetOptionStates env s).selectedSequencesFolder = "" ∧
    (loadWidgetOptionStates env s).outputDirectory = asset.outputDirectory ∧
    (loadWidgetOptionStates env s).outputImageResolution = asset.outputImageResolution ∧
    (loadWidgetOptionStates env s).sequenceRendererTargets.bExportCameraPoses =
      asset.bCameraPosesSelected ∧
    (loadWidgetOptionStates env s).sequenceRendererTargets.selectedTargets
      TargetType.COLOR_IMAGE = asset.bColorImagesSelected ∧
    (loadWidgetOptionStates env s).sequenceRendererTargets.selectedTargets
      TargetType.DEPTH_IMAGE = asset.bDepthImagesSelected ∧
    (loadWidgetOptionStates env s).sequenceRendererTargets.selectedTargets
      TargetType.NORMAL_IMAGE = asset.bNormalImagesSelected ∧
    (loadWidgetOptionStates env s).sequenceRendererTargets.selectedTargets
      TargetType.OPTICAL_FLOW_IMAGE = asset.bOpticalFlowImagesSelected ∧
    (loadWidgetOptionStates env s).sequenceRendererTargets.selectedTargets
      TargetType.SEMANTIC_IMAGE = asset.bSemanticImagesSelected ∧
    (loadWidgetOptionStates env s).sequenceRendererTargets.depthRangeMeters =
      asset.depthRange ∧
    (loadWidgetOptionStates env s).sequenceRendererTargets.opticalFlowScale =
      asset.opticalFlowScale ∧
    (∀ f : String, savedWidgetStateAsset { s with selectedSequencesFolder := f } =
      savedWidgetStateAsset s) := by
  refine ⟨?_, ?_, ?_, ?_, ?_, ?_, ?_, ?_, ?_, ?_, ?_, fun f => rfl⟩ <;>
    simp [loadWidgetOptionStates, h, setSelectedTarget, setOutputFormat]

/-- C4: option state round-trips through the persisted asset — loading the
asset written by a save restores the camera-poses flag, every per-target
selected flag, every per-target output format (the custom post-process
material's included), the custom material path, the output resolution, the
depth range, the optical flow scale and the output directory. -/
theorem c4_option_roundtrip (env : Env) (s : WidgetState)
    (hAsset : env.widgetStateAsset = some (savedWidgetStateAsset s))
    (hLoad : env.tryLoad (toSoftObjectPath s.sequenceRendererTargets.customPPMaterial) =
      s.sequenceRendererTargets.customPPMaterial) :
    (loadWidgetOptionStates env s).sequenceRendererTargets.bExportCameraPoses =
      s.sequenceRendererTargets.bExportCameraPoses ∧
    (∀ t ∈ targetCheckBoxKinds,
      (loadWidgetOptionStates env s).sequenceRendererTargets.selectedTargets t =
        s.sequenceRendererTargets.selectedTargets t) ∧
    (∀ t : TargetType,
      (loadWidgetOptionStates env s).sequenceRendererTargets.outputFormats t =
        s.sequenceRendererTargets.outputFormats t) ∧
    getCustomPPMaterialPath (loadWidgetOptionStates env s) = getCustomPPMaterialPath s ∧
    (loadWidgetOptionStates env s).outputImageResolution = s.outputImageResolution ∧
    (loadWidgetOptionStates env s).sequenceRendererTargets.depthRangeMeters =
      s.sequenceRendererTargets.depthRangeMeters ∧
    (loadWidgetOptionStates env s).sequenceRendererTargets.opticalFlowScale =
      s.sequenceRendererTargets.opticalFlowScale ∧
    (loadWidgetOptionStates env s).outputDirectory = s.outputDirectory := by
  refine ⟨?_, ?_, ?_, ?_, ?_, ?_, ?_, ?_⟩
  · simp [loadWidgetOptionStates, hAsset, savedWidgetStateAsset,
      setSelectedTarget, setOutputFormat]
  · intro t ht
    fin_cases ht <;>
      simp [loadWidgetOptionStates, hAsset, savedWidgetStateAsset,
        setSelectedTarget, setOutputFormat, targetCheckBoxKinds]
  · intro t
    cases t <;>
      simp [loadWidgetOptionStates, hAsset, savedWidgetStateAsset,
        setSelectedTarget, setOutputFormat, imageFormat_roundtrip]
  · simp [loadWidgetOptionStates, hAsset, savedWidgetStateAsset,
      setSelectedTarget, setOutputFormat, getCustomPPMaterialPath, hLoad]
  · simp [loadWidgetOptionStates, hAsset, savedWidgetStateAsset]
  · simp [loadWidgetOptionStates, hAsset, savedWidgetStateAsset,
      setSelectedTarget, setOutputFormat]
  · simp [loadWidgetOptionStates, hAsset, savedWidgetStateAsset,
      setSelectedTarget, setOutputFormat]
  · simp [loadWidgetOptionStates, hAsset, savedWidgetStateAsset]

/-- Concrete renderer target options for witness evaluations. -/
def wTargets : FRendererTargetOptions :=
  { bExportCameraPoses := true
    selectedTargets := fun t => t == TargetType.COLOR_IMAGE
    outputFormats := fun _ => EImageFormat.PNG
    customPPMaterial := none
    depthRangeMeters := 100
    opticalFlowScale := 1 }

/-- A concrete level sequence asset. -/
def wSeqA : FAssetData :=
  { assetName := "SeqA", assetClassName := "LevelSequence",
    objectPath := "/Game/Sequences/SeqA" }

/-- A second concrete level sequence asset. -/
def wSeqB : FAssetData :=
  { assetName := "SeqB", assetClassName := "LevelSequence",
    objectPath := "/Game/Sequences/SeqB" }

/-- A concrete non-sequence asset, filtered out during discovery. -/
def wMesh : FAssetData :=
  { assetName := "Mesh1", assetClassName := "StaticMesh",
    objectPath := "/Game/Sequences/Mesh1" }

/-- A concrete widget state before any batch. -/
def wState : WidgetState :=
  { selectedSequencesFolder := "/Game/Sequences"
    sequenceRendererTargets := wTargets
    outputImageResolution := (1920, 1080)
    outputDirectory := "/out"
    baseOutputDirectory := ""
    sequencesToRender := []
    currentSequenceIndex := -1 }

/-- The persisted asset produced by saving `wState`. -/
def wAsset : UWidgetStateAsset := savedWidgetStateAsset wState

/-- A concrete engine environment with two level sequences and one other
asset in the selected folder, an accepting renderer, and `wAsset`
persisted. -/
def wEnv : Env :=
  { tryConvertFilenameToLongPackageName := fun f => some f
    getAssetsByPath := fun _ _ => [wSeqA, wMesh, wSeqB]
    renderSequenceOk := fun _ _ _ _ => true
    rendererErrorMessage := "renderer error"
    tryLoad := fun _ => none
    widgetStateAsset := some wAsset }

/-- The same environment with a renderer that rejects every start request. -/
def wEnvFail : Env := { wEnv with renderSequenceOk := fun _ _ _ _ => false }

/-- A concrete widget state in the middle of a batch (index 0 of two queued
sequences). -/
def wBatchState : WidgetState :=
  { wState with sequencesToRender := [wSeqA, wSeqB], currentSequenceIndex := 0,
                baseOutputDirectory := "/out" }

/-- A concrete widget state at the last sequence of a batch. -/
def wLastState : WidgetState :=
  { wBatchState with currentSequenceIndex := 1 }

/-- Witness for C1 at a concrete two-sequence batch with three successful
finish callbacks. -/
theorem c1_linear_batch_iteration_witness :
    wEnv.tryConvertFilenameToLongPackageName wState.selectedSequencesFolder =
      some "/Game/Sequences" ∧
    (wEnv.getAssetsByPath "/Game/Sequences" false).filter
      (fun x => x.assetClassName == "LevelSequence") ≠ [] ∧
    renderedSequences (runBatch wEnv wState (List.replicate 3 true)).2 =
      ((wEnv.getAssetsByPath "/Game/Sequences" false).filter
        (fun x => x.assetClassName == "LevelSequence")).take (3 + 1) :=
  ⟨rfl, by decide,
    c1_linear_batch_iteration wEnv wState "/Game/Sequences" 3 rfl
      (fun _ _ _ _ => rfl) (by decide)⟩

/-- Witness for C2 at a concrete batch state whose renderer rejects the start
request. -/
theorem c2_failure_aborts_batch_witness :
    (0 : Int) ≤ wBatchState.currentSequenceIndex ∧
    wBatchState.sequencesToRender[wBatchState.currentSequenceIndex.toNat]? = some wSeqA ∧
    wEnvFail.renderSequenceOk wSeqA wBatchState.sequenceRendererTargets
      wBatchState.outputImageResolution
      (pathJoin wBatchState.baseOutputDirectory wSeqA.assetName) = false ∧
    (((renderCurrentSequence wEnvFail wBatchState).1.sequencesToRender = [] ∧
      (renderCurrentSequence wEnvFail wBatchState).1.currentSequenceIndex = -1 ∧
      Event.dialog "Could not start rendering" wEnvFail.rendererErrorMessage ∈
        (renderCurrentSequence wEnvFail wBatchState).2) ∧
     (∀ s' : WidgetState,
       (onRenderingFinished wEnvFail false s').1.sequencesToRender = [] ∧
       (onRenderingFinished wEnvFail false s').1.currentSequenceIndex = -1 ∧
       (onRenderingFinished wEnvFail false s').2 =
         [Event.dialog "Rendering failed"
           (("Failed on sequence: " ++ failedSequenceName s' ++ "\n\nError: ") ++
             wEnvFail.rendererErrorMessage)])) :=
  ⟨by decide, rfl, rfl,
    c2_failure_aborts_batch wEnvFail wBatchState wSeqA (by decide) rfl rfl⟩

/-- Witness for C3 at a concrete batch state with one sequence remaining. -/
theorem c3_gc_between_items_witness :
    wBatchState.currentSequenceIndex = ((0 : Nat) : Int) ∧
    ((∀ seq : FAssetData, wBatchState.sequencesToRender[0 + 1]? = some seq →
      ∃ rest, (onRenderingFinished wEnv true wBatchState).2 =
        Event.forceGarbageCollection :: Event.sleep ::
          Event.renderCall seq wBatchState.sequenceRendererTargets
            wBatchState.outputImageResolution
            (pathJoin wBatchState.baseOutputDirectory seq.assetName) :: rest) ∧
     (0 + 1 = wBatchState.sequencesToRender.length →
       Event.forceGarbageCollection ∉ (onRenderingFinished wEnv true wBatchState).2)) :=
  ⟨rfl, c3_gc_between_items wEnv wBatchState 0 rfl⟩

/-- Witness for C5 at the concrete registry holding two sequences and one
static mesh. -/
theorem c5_sequence_discovery_witness :
    wEnv.tryConvertFilenameToLongPackageName wState.selectedSequencesFolder =
      some "/Game/Sequences" ∧
    (onRenderImagesClicked wEnv wState).1.sequencesToRender =
      (wEnv.getAssetsByPath "/Game/Sequences" false).filter
        (fun x => x.assetClassName == "LevelSequence") :=
  ⟨rfl, c5_sequence_discovery wEnv wState "/Game/Sequences" rfl (fun _ _ _ _ => rfl)⟩

/-- Witness for C6 at a concrete batch state. -/
theorem c6_delegates_to_renderer_witness :
    (0 : Int) ≤ wBatchState.currentSequenceIndex ∧
    wBatchState.sequencesToRender[wBatchState.currentSequenceIndex.toNat]? = some wSeqA ∧
    (renderCalls (renderCurrentSequence wEnv wBatchState).2 =
      [Event.renderCall wSeqA wBatchState.sequenceRendererTargets
        wBatchState.outputImageResolution
        (pathJoin wBatchState.baseOutputDirectory wSeqA.assetName)] ∧
     (∀ packagePath : String,
       wEnv.tryConvertFilenameToLongPackageName wBatchState.selectedSequencesFolder =
         some packagePath →
       (onRenderImagesClicked wEnv wBatchState).1.baseOutputDirectory =
         wBatchState.baseOutputDirectory ∨
       (onRenderImagesClicked wEnv wBatchState).1.baseOutputDirectory =
         wBatchState.outputDirectory)) :=
  ⟨by decide, rfl, c6_delegates_to_renderer wEnv wBatchState wSeqA (by decide) rfl⟩

/-- Witness for C7 at the last sequence of a concrete batch. -/
theorem c7_batch_complete_witness :
    wLastState.currentSequenceIndex = ((1 : Nat) : Int) ∧
    1 + 1 = wLastState.sequencesToRender.length ∧
    ((onRenderingFinished wEnv true wLastState).1.sequencesToRender = [] ∧
     (onRenderingFinished wEnv true wLastState).1.currentSequenceIndex = -1 ∧
     (onRenderingFinished wEnv true wLastState).2 =
       [Event.dialog "Batch Rendering Complete"
         (batchCompleteMessage wLastState.sequencesToRender.length)]) :=
  ⟨rfl, rfl, c7_batch_complete wEnv wLastState 1 rfl rfl⟩

/-- Witness for C4 at the concrete state `wState` and the asset its save
produces. -/
theorem c4_option_roundtrip_witness :
    wEnv.widgetStateAsset = some (savedWidgetStateAsset wState) ∧
    wEnv.tryLoad (toSoftObjectPath wState.sequenceRendererTargets.customPPMaterial) =
      wState.sequenceRendererTargets.customPPMaterial ∧
    ((loadWidgetOptionStates wEnv wState).sequenceRendererTargets.bExportCameraPoses =
      wState.sequenceRendererTargets.bExportCameraPoses ∧
    (∀ t ∈ targetCheckBoxKinds,
      (loadWidgetOptionStates wEnv wState).sequenceRendererTargets.selectedTargets t =
        wState.sequenceRendererTargets.selectedTargets t) ∧
    (∀ t : TargetType,
      (loadWidgetOptionStates wEnv wState).sequenceRendererTargets.outputFormats t =
        wState.sequenceRendererTargets.outputFormats t) ∧
    getCustomPPMaterialPath (loadWidgetOptionStates wEnv wState) =
      getCustomPPMaterialPath wState ∧
    (loadWidgetOptionStates wEnv wState).outputImageResolution =
      wState.outputImageResolution ∧
    (loadWidgetOptionStates wEnv wState).sequenceRendererTargets.depthRangeMeters =
      wState.sequenceRendererTargets.depthRangeMeters ∧
    (loadWidgetOptionStates wEnv wState).sequenceRendererTargets.opticalFlowScale =
      wState.sequenceRendererTargets.opticalFlowScale ∧
    (loadWidgetOptionStates wEnv wState).outputDirectory = wState.outputDirectory) :=
  ⟨rfl, rfl, c4_option_roundtrip wEnv wState rfl rfl⟩

/-- Witness for C10 at the concrete environment holding the saved asset. -/
theorem c10_folder_never_persisted_witness :
    wEnv.widgetStateAsset = some wAsset ∧
    ((loadWidgetOptionStates wEnv wState).selectedSequencesFolder = "" ∧
    (loadWidgetOptionStates wEnv wState).outputDirectory = wAsset.outputDirectory ∧
    (loadWidgetOptionStates wEnv wState).outputImageResolution =
      wAsset.outputImageResolution ∧
    (loadWidgetOptionStates wEnv wState).sequenceRendererTargets.bExportCameraPoses =
      wAsset.bCameraPosesSelected ∧
    (loadWidgetOptionStates wEnv wState).sequenceRendererTargets.selectedTargets
      TargetType.COLOR_IMAGE = wAsset.bColorImagesSelected ∧
    (loadWidgetOptionStates wEnv wState).sequenceRendererTargets.selectedTargets
      TargetType.DEPTH_IMAGE = wAsset.bDepthImagesSelected ∧
    (loadWidgetOptionStates wEnv wState).sequenceRendererTargets.selectedTargets
      TargetType.NORMAL_IMAGE = wAsset.bNormalImagesSelected ∧
    (loadWidgetOptionStates wEnv wState).sequenceRendererTargets.selectedTargets
      TargetType.OPTICAL_FLOW_IMAGE = wAsset.bOpticalFlowImagesSelected ∧
    (loadWidgetOptionStates wEnv wState).sequenceRendererTargets.selectedTargets
      TargetType.SEMANTIC_IMAGE = wAsset.bSemanticImagesSelected ∧
    (loadWidgetOptionStates wEnv wState).sequenceRendererTargets.depthRangeMeters =
      wAsset.depthRange ∧
    (loadWidgetOptionStates wEnv wState).sequenceRendererTargets.opticalFlowScale =
      wAsset.opticalFlowScale ∧
    (∀ f : String, savedWidgetStateAsset { wState with selectedSequencesFolder := f } =
      savedWidgetStateAsset wState)) :=
  ⟨rfl, c10_folder_never_persisted wEnv wState wAsset rfl⟩

end EasySynth
